import Mathlib

/-!
Verification of the AISC 360 W-shape validator (`aisc_w_validator.py`).

The Python engine is shallowly embedded over the real numbers: every
floating-point quantity becomes a real number, every check function becomes a
Lean function returning a structure that mirrors the dictionary the Python
function returns.  Python's `ZeroDivisionError` in the interaction check is
modelled by an `Option` result (`none` = the evaluation raises).
-/

open Real

noncomputable section

/-- Geometric and material properties of a W shape (`PropiedadesPerfilW`). -/
structure PropiedadesPerfilW where
  d : ℝ
  bf : ℝ
  tf : ℝ
  tw : ℝ
  A : ℝ
  Ix : ℝ
  Sx : ℝ
  Zx : ℝ
  rx : ℝ
  Iy : ℝ
  Sy : ℝ
  Zy : ℝ
  ry : ℝ
  ho : ℝ
  J : ℝ
  Cw : ℝ
  Fy : ℝ
  Fu : ℝ
  E : ℝ := 2038902

/-- Applied loads and member lengths (`CondicionesCarga`). -/
structure CondicionesCarga where
  Pu : ℝ
  Mux : ℝ
  Muy : ℝ
  L : ℝ
  Lx : ℝ
  Ly : ℝ
  Lt : ℝ
  Cb : ℝ := 1.0

/-- Flange width-thickness ratio `lambda_f = bf / (2 tf)`. -/
def lambdaF (p : PropiedadesPerfilW) : ℝ := p.bf / (2 * p.tf)

/-- Web width-thickness ratio `lambda_w = (d - 2 tf) / tw`. -/
def lambdaW (p : PropiedadesPerfilW) : ℝ := (p.d - 2 * p.tf) / p.tw

/-- The recurring factor `sqrt(E / Fy)` of the slenderness limits. -/
def raizEFy (p : PropiedadesPerfilW) : ℝ := Real.sqrt (p.E / p.Fy)

/-- Classification of one element from its width-thickness ratio
(`_clasificar_elemento`). -/
def clasificarElemento (lambdaVal lambdaP lambdaR : ℝ) : String :=
  if lambdaVal ≤ lambdaP then "compacta"
  else if lambdaVal ≤ lambdaR then "no_compacta"
  else "esbelta"

/-- Result of `clasificar_seccion`: the three element categories together with
the ratios and limits reported in the `relaciones` sub-dictionary. -/
structure Clasificacion where
  patinCompresion : String
  patinFlexion : String
  almaFlexion : String
  lambdaFVal : ℝ
  lambdaWVal : ℝ
  lambdaPfComp : ℝ
  lambdaRfComp : ℝ
  lambdaPfFlex : ℝ
  lambdaRfFlex : ℝ
  lambdaPwFlex : ℝ
  lambdaRwFlex : ℝ

/-- Section classification per tables B4.1a and B4.1b (`clasificar_seccion`). -/
def clasificarSeccion (p : PropiedadesPerfilW) : Clasificacion :=
  { patinCompresion :=
      clasificarElemento (lambdaF p) (0.56 * raizEFy p) (1.49 * raizEFy p)
    patinFlexion :=
      clasificarElemento (lambdaF p) (0.38 * raizEFy p) (1.0 * raizEFy p)
    almaFlexion :=
      clasificarElemento (lambdaW p) (3.76 * raizEFy p) (5.70 * raizEFy p)
    lambdaFVal := lambdaF p
    lambdaWVal := lambdaW p
    lambdaPfComp := 0.56 * raizEFy p
    lambdaRfComp := 1.49 * raizEFy p
    lambdaPfFlex := 0.38 * raizEFy p
    lambdaRfFlex := 1.0 * raizEFy p
    lambdaPwFlex := 3.76 * raizEFy p
    lambdaRwFlex := 5.70 * raizEFy p }

/-- Result dictionary of `verificar_tension`. -/
structure ResultadoTension where
  PnFluencia : ℝ
  PtFluencia : ℝ
  PnRuptura : ℝ
  PtRuptura : ℝ
  PtGobernante : ℝ
  PuAplicada : ℝ
  RDC : ℝ
  estado : String
  modoGobernante : String

/-- Chapter D tension check (`verificar_tension`). -/
def verificarTension (p : PropiedadesPerfilW) (c : CondicionesCarga) :
    ResultadoTension :=
  let PnFluencia := p.Fy * p.A
  let PtFluencia := 0.9 * PnFluencia
  let PnRuptura := p.Fu * p.A
  let PtRuptura := 0.75 * PnRuptura
  let Pt := min PtFluencia PtRuptura
  let RDC := |c.Pu| / Pt
  { PnFluencia := PnFluencia
    PtFluencia := PtFluencia
    PnRuptura := PnRuptura
    PtRuptura := PtRuptura
    PtGobernante := Pt
    PuAplicada := c.Pu
    RDC := RDC
    estado := if RDC ≤ 1.0 then "PASA" else "FALLA"
    modoGobernante := if PtFluencia < PtRuptura then "fluencia" else "ruptura" }

/-- Result dictionary of `_verificar_compresion_no_esbeltos` (section E3). -/
structure ResultadoCompresionE3 where
  (KLrX KLrY KLrGobernante Fe lambdaC Fcr Pn Pc PuAplicada RDC : ℝ)
  (estado modoPandeo : String)

/-- Chapter E, section E3: flexural buckling of members without slender
elements (`_verificar_compresion_no_esbeltos`). -/
def verificarCompresionNoEsbeltos (p : PropiedadesPerfilW)
    (c : CondicionesCarga) : ResultadoCompresionE3 :=
  let KLrX := c.Lx / p.rx
  let KLrY := c.Ly / p.ry
  let KLr := max KLrX KLrY
  let Fe := Real.pi ^ 2 * p.E / KLr ^ 2
  let lambdaC := p.Fy / Fe
  let inelastico := KLr ≤ 4.71 * Real.sqrt (p.E / p.Fy) ∨ lambdaC ≤ 2.25
  let Fcr := if inelastico then (0.658 : ℝ) ^ lambdaC * p.Fy else 0.877 * Fe
  let Pn := Fcr * p.A
  let Pc := 0.9 * Pn
  let RDC := |c.Pu| / Pc
  { KLrX := KLrX
    KLrY := KLrY
    KLrGobernante := KLr
    Fe := Fe
    lambdaC := lambdaC
    Fcr := Fcr
    Pn := Pn
    Pc := Pc
    PuAplicada := |c.Pu|
    RDC := RDC
    estado := if RDC ≤ 1.0 then "PASA" else "FALLA"
    modoPandeo := if inelastico then "inelastico" else "elastico" }

/-- Reference stress `Fn` of the E7 path: the factored design capacity `Pc`
of the standard (non-slender) path on the gross section. -/
def fnReferencia (p : PropiedadesPerfilW) (c : CondicionesCarga) : ℝ :=
  (verificarCompresionNoEsbeltos p c).Pc

/-- E7 slender limit ratio for the flange, `1.03 sqrt(E/Fy)`. -/
def lambdaRfE7 (p : PropiedadesPerfilW) : ℝ := 1.03 * Real.sqrt (p.E / p.Fy)

/-- Local buckling stress of the flange, equation E7-5, capped at `Fy`. -/
def fclPatin (p : PropiedadesPerfilW) : ℝ :=
  let f := 1.49 * (lambdaRfE7 p / lambdaF p) ^ 2 * p.Fy
  if f > p.Fy then p.Fy else f

/-- Effective flange width of the E7 path (`be_patin`): reduced only when the
flange is classified slender and its ratio exceeds the E7 limit ratio. -/
def bePatin (p : PropiedadesPerfilW) (c : CondicionesCarga) : ℝ :=
  if (clasificarSeccion p).patinCompresion = "esbelta" then
    if lambdaF p > lambdaRfE7 p then
      p.bf * (1 - 0.22 * Real.sqrt (fclPatin p / fnReferencia p c)) *
        Real.sqrt (fclPatin p / fnReferencia p c)
    else p.bf
  else p.bf

/-- E7 slender limit ratio for the web, `5.70 sqrt(E/Fy)`. -/
def lambdaRwE7 (p : PropiedadesPerfilW) : ℝ := 5.70 * Real.sqrt (p.E / p.Fy)

/-- Local buckling stress of the web, equation E7-5, capped at `Fy`. -/
def fclAlma (p : PropiedadesPerfilW) : ℝ :=
  let f := 1.49 * (lambdaRwE7 p / lambdaW p) ^ 2 * p.Fy
  if f > p.Fy then p.Fy else f

/-- Effective web width of the E7 path (`be_alma`). -/
def beAlma (p : PropiedadesPerfilW) (c : CondicionesCarga) : ℝ :=
  if (clasificarSeccion p).almaFlexion = "esbelta" then
    if lambdaW p > lambdaRwE7 p then
      (p.d - 2 * p.tf) * (1 - 0.22 * Real.sqrt (fclAlma p / fnReferencia p c)) *
        Real.sqrt (fclAlma p / fnReferencia p c)
    else p.d - 2 * p.tf
  else p.d - 2 * p.tf

/-- Effective area of the E7 path, clamped so it never exceeds the gross
area. -/
def aeEfectiva (p : PropiedadesPerfilW) (c : CondicionesCarga) : ℝ :=
  let ae := p.A - 2 * (p.bf - bePatin p c) * p.tf -
    (p.d - 2 * p.tf - beAlma p c) * p.tw
  if ae > p.A then p.A else ae

/-- Modified yield stress of the E7 path, `Fy * (Ae / A)`. -/
def fyModificado (p : PropiedadesPerfilW) (c : CondicionesCarga) : ℝ :=
  p.Fy * (aeEfectiva p c / p.A)

/-- Result dictionary of `_verificar_compresion_esbeltos` (section E7). -/
structure ResultadoCompresionE7 where
  (KLrX KLrY KLrGobernante Fe lambdaC Fcr Ae FyMod : ℝ)
  (bePatinVal beAlmaVal Pn Pc PuAplicada RDC : ℝ)
  (estado modoPandeo tipoAnalisis : String)

/-- Chapter E, section E7: members with slender elements
(`_verificar_compresion_esbeltos`). -/
def verificarCompresionEsbeltos (p : PropiedadesPerfilW)
    (c : CondicionesCarga) : ResultadoCompresionE7 :=
  let Ae := aeEfectiva p c
  let FyMod := fyModificado p c
  let KLrX := c.Lx / p.rx
  let KLrY := c.Ly / p.ry
  let KLr := max KLrX KLrY
  let Fe := Real.pi ^ 2 * p.E / KLr ^ 2
  let lambdaC := Real.sqrt (FyMod / Fe)
  let inelastico := KLr ≤ 4.71 * Real.sqrt (p.E / FyMod) ∨ lambdaC ≤ 2.25
  let Fcr :=
    if inelastico then (0.658 : ℝ) ^ (lambdaC ^ 2) * FyMod else 0.877 * Fe
  let Pn := Fcr * Ae
  let Pc := 0.9 * Pn
  let RDC := |c.Pu| / Pc
  { KLrX := KLrX
    KLrY := KLrY
    KLrGobernante := KLr
    Fe := Fe
    lambdaC := lambdaC
    Fcr := Fcr
    Ae := Ae
    FyMod := FyMod
    bePatinVal := bePatin p c
    beAlmaVal := beAlma p c
    Pn := Pn
    Pc := Pc
    PuAplicada := |c.Pu|
    RDC := RDC
    estado := if RDC ≤ 1.0 then "PASA" else "FALLA"
    modoPandeo := if inelastico then "inelastico" else "elastico"
    tipoAnalisis := "elementos_esbeltos" }

/-- Either compression result dictionary, as returned by
`verificar_compresion`. -/
inductive ResultadoCompresion where
  | noEsbeltos (r : ResultadoCompresionE3)
  | esbeltos (r : ResultadoCompresionE7)

/-- The `Pc` entry shared by both compression result dictionaries. -/
def ResultadoCompresion.Pc : ResultadoCompresion → ℝ
  | .noEsbeltos r => r.Pc
  | .esbeltos r => r.Pc

/-- Chapter E dispatch (`verificar_compresion`): the slender-element path is
taken when the compression flange or the web is classified slender. -/
def verificarCompresion (p : PropiedadesPerfilW) (c : CondicionesCarga) :
    ResultadoCompresion :=
  if (clasificarSeccion p).patinCompresion = "esbelta" ∨
      (clasificarSeccion p).almaFlexion = "esbelta" then
    .esbeltos (verificarCompresionEsbeltos p c)
  else
    .noEsbeltos (verificarCompresionNoEsbeltos p c)

/-- Limiting laterally unbraced length for yielding, equation F2-5:
`Lp = 1.76 ry sqrt(E/Fy)`. -/
def lpVal (p : PropiedadesPerfilW) : ℝ :=
  1.76 * p.ry * Real.sqrt (p.E / p.Fy)

/-- Effective radius of gyration for lateral-torsional buckling,
`rts = sqrt(sqrt(Iy Cw) / Sx)`. -/
def rtsVal (p : PropiedadesPerfilW) : ℝ :=
  Real.sqrt (Real.sqrt (p.Iy * p.Cw) / p.Sx)

/-- Limiting unbraced length for inelastic lateral-torsional buckling,
equation F2-6 with `c = 1`. -/
def lrVal (p : PropiedadesPerfilW) : ℝ :=
  1.95 * rtsVal p * (p.E / (0.7 * p.Fy)) *
    Real.sqrt ((p.J * 1.0) / (p.Sx * p.ho) +
      Real.sqrt (((p.J * 1.0) / (p.Sx * p.ho)) ^ 2 +
        6.76 * (0.7 * p.Fy / p.E) ^ 2))

/-- Plastic moment about the strong axis, `Mp = Fy Zx`. -/
def mpVal (p : PropiedadesPerfilW) : ℝ := p.Fy * p.Zx

/-- Equation F2-2: inelastic lateral-torsional interpolation between the
plastic moment and `0.7 Fy Sx`, scaled by `Cb`. -/
def mnInterp (p : PropiedadesPerfilW) (Cb Lt : ℝ) : ℝ :=
  Cb * (mpVal p - (mpVal p - 0.7 * p.Fy * p.Sx) * (Lt - lpVal p) /
    (lrVal p - lpVal p))

/-- Equation F2-3: elastic lateral-torsional buckling stress, with `c = 1`. -/
def fcrLTB (p : PropiedadesPerfilW) (Cb Lt : ℝ) : ℝ :=
  (Cb * Real.pi ^ 2 * p.E / (Lt / rtsVal p) ^ 2) *
    Real.sqrt (1 + 0.078 * ((p.J * 1.0) / (p.Sx * p.ho)) *
      (Lt / rtsVal p) ^ 2)

/-- Strong-axis nominal moment (`Mn`) of `_verificar_flexion_eje_fuerte`: the
three-regime dispatch on `Lt` against `Lp` and `Lr`, with the plastic-moment
cap applied in the elastic regime only.  The second guard keeps the source's
redundant conjunction `Lt < Lr and Lt <= Lr`. -/
def mnFuerteVal (p : PropiedadesPerfilW) (c : CondicionesCarga) : ℝ :=
  if c.Lt ≤ lpVal p then mpVal p
  else if c.Lt < lrVal p ∧ c.Lt ≤ lrVal p then mnInterp p c.Cb c.Lt
  else
    if fcrLTB p c.Cb c.Lt * p.Sx > p.Fy * p.Zx then p.Fy * p.Zx
    else fcrLTB p c.Cb c.Lt * p.Sx

/-- Governing limit state recorded by `_verificar_flexion_eje_fuerte`. -/
def estadoLimiteFuerte (p : PropiedadesPerfilW) (c : CondicionesCarga) :
    String :=
  if c.Lt ≤ lpVal p then "fluencia"
  else if c.Lt < lrVal p ∧ c.Lt ≤ lrVal p then "pandeo_LT_inelastico"
  else "pandeo_LT_elastico"

/-- Equation reference recorded by `_verificar_flexion_eje_fuerte`. -/
def ecuacionFuerte (p : PropiedadesPerfilW) (c : CondicionesCarga) : String :=
  if c.Lt ≤ lpVal p then "F2-1"
  else if c.Lt < lrVal p ∧ c.Lt ≤ lrVal p then "F2-2"
  else "F2-3"

/-- Result dictionary of `_verificar_flexion_eje_fuerte`. -/
structure ResultadoFlexionFuerte where
  (Lp Lr Lt rts Mn Mb MuxAplicada RDC : ℝ)
  (estado estadoLimite clasificacion ecuacion : String)

/-- Chapter F, sections F2: strong-axis flexure
(`_verificar_flexion_eje_fuerte`). -/
def verificarFlexionFuerte (p : PropiedadesPerfilW) (c : CondicionesCarga) :
    ResultadoFlexionFuerte :=
  let Mn := mnFuerteVal p c
  let Mb := 0.9 * Mn
  let RDC := |c.Mux| / Mb
  { Lp := lpVal p
    Lr := lrVal p
    Lt := c.Lt
    rts := rtsVal p
    Mn := Mn
    Mb := Mb
    MuxAplicada := c.Mux
    RDC := RDC
    estado := if RDC ≤ 1.0 then "PASA" else "FALLA"
    estadoLimite := estadoLimiteFuerte p c
    clasificacion := (clasificarSeccion p).patinFlexion
    ecuacion := ecuacionFuerte p c }

/-- Equation F6-4 as written in the source: `Fcr = 0.70 E / (bf/tf)^2`, the
full flange width over the flange thickness. -/
def fcrF6 (p : PropiedadesPerfilW) : ℝ :=
  (0.70 * p.E) / (p.bf / p.tf) ^ 2

/-- Weak-axis nominal moment of `_verificar_flexion_eje_debil`, dispatching on
the flange-under-flexure classification.  The noncompact branch keeps the
source's `0.70 * Sy * Sy` reduction term. -/
def mnDebilVal (p : PropiedadesPerfilW) : ℝ :=
  if (clasificarSeccion p).patinFlexion = "compacta" then p.Fy * p.Zy
  else if (clasificarSeccion p).patinFlexion = "no_compacta" then
    p.Fy * p.Zy - (p.Fy * p.Zy - 0.70 * p.Sy * p.Sy) *
      ((lambdaF p - 0.38 * raizEFy p) / (1.0 * raizEFy p - 0.38 * raizEFy p))
  else fcrF6 p * p.Sy

/-- Governing limit state recorded by `_verificar_flexion_eje_debil`. -/
def estadoLimiteDebil (p : PropiedadesPerfilW) : String :=
  if (clasificarSeccion p).patinFlexion = "compacta" then "fluencia"
  else if (clasificarSeccion p).patinFlexion = "no_compacta" then "no_compacta"
  else "esbelta"

/-- Result dictionary of `_verificar_flexion_eje_debil`. -/
structure ResultadoFlexionDebil where
  (Mn Mb MuyAplicada RDC : ℝ)
  (estado estadoLimite clasificacion : String)

/-- Chapter F, section F6: weak-axis flexure
(`_verificar_flexion_eje_debil`). -/
def verificarFlexionDebil (p : PropiedadesPerfilW) (c : CondicionesCarga) :
    ResultadoFlexionDebil :=
  let Mn := mnDebilVal p
  let Mb := 0.9 * Mn
  let RDC := |c.Muy| / Mb
  { Mn := Mn
    Mb := Mb
    MuyAplicada := c.Muy
    RDC := RDC
    estado := if RDC ≤ 1.0 then "PASA" else "FALLA"
    estadoLimite := estadoLimiteDebil p
    clasificacion := (clasificarSeccion p).patinFlexion }

/-- Combined interaction value of `verificar_interaccion_flexo_compresion`:
equation H1-1a when `Pr/Pc >= 0.2`, H1-1b otherwise. -/
def interaccionVal (Pr Pc Mrx Mcx Mry Mcy : ℝ) : ℝ :=
  if Pr / Pc ≥ 0.2 then Pr / Pc + (8.0 / 9.0) * (Mrx / Mcx + Mry / Mcy)
  else Pr / (2 * Pc) + (Mrx / Mcx + Mry / Mcy)

/-- Equation identifier selected by the interaction check. -/
def ecuacionInteraccion (Pr Pc : ℝ) : String :=
  if Pr / Pc ≥ 0.2 then "H1-1a" else "H1-1b"

/-- Numeric entries of the interaction result dictionary. -/
structure DatosInteraccion where
  (interaccion : ℝ)
  (ecuacionAplicada : String)
  (PrPc MrxMcx MryMcy Pr Pc Mrx Mcx Mry Mcy : ℝ)
  (estado : String)

/-- Interaction result: either the explicit missing-compression error
dictionary or the computed dictionary. -/
inductive ResultadoInteraccion where
  | errorCompresion
  | calculado (d : DatosInteraccion)

/-- The interaction result dictionary on the success path. -/
def datosInteraccion (Pr Pc Mrx Mcx Mry Mcy : ℝ) : DatosInteraccion :=
  { interaccion := interaccionVal Pr Pc Mrx Mcx Mry Mcy
    ecuacionAplicada := ecuacionInteraccion Pr Pc
    PrPc := if Pc > 0 then Pr / Pc else 0
    MrxMcx := if Mcx > 0 then Mrx / Mcx else 0
    MryMcy := if Mcy > 0 then Mry / Mcy else 0
    Pr := Pr
    Pc := Pc
    Mrx := Mrx
    Mcx := Mcx
    Mry := Mry
    Mcy := Mcy
    estado := if interaccionVal Pr Pc Mrx Mcx Mry Mcy ≤ 1.0 then "PASA"
      else "FALLA" }

/-- Chapter H interaction check (`verificar_interaccion_flexo_compresion`).
`none` models the `ZeroDivisionError` Python raises when `Pc`, `Mcx` or `Mcy`
is zero at the divisions of the combined-value formula; a missing strong- or
weak-axis flexure result contributes a zero moment capacity. -/
def verificarInteraccion (comp : Option ResultadoCompresion)
    (fx : Option ResultadoFlexionFuerte) (fy : Option ResultadoFlexionDebil)
    (c : CondicionesCarga) : Option ResultadoInteraccion :=
  match comp with
  | none => some .errorCompresion
  | some cr =>
    let Pc := cr.Pc
    let Mcx := match fx with | some r => r.Mb | none => 0
    let Mcy := match fy with | some r => r.Mb | none => 0
    let Pr := |c.Pu|
    let Mrx := |c.Mux|
    let Mry := |c.Muy|
    if Pc = 0 ∨ Mcx = 0 ∨ Mcy = 0 then none
    else some (.calculado (datosInteraccion Pr Pc Mrx Mcx Mry Mcy))

/-- Aggregate result assembled by `validar_todo`. -/
structure ResultadosTotales where
  (tension : Option ResultadoTension)
  (compresion : Option ResultadoCompresion)
  (flexionEjeFuerte : Option ResultadoFlexionFuerte)
  (flexionEjeDebil : Option ResultadoFlexionDebil)
  (clasificacionSeccion : Clasificacion)
  (interaccionFlexoCompresion : Option ResultadoInteraccion)

/-- Orchestrator `validar_todo`.  The outer `Option` models the whole
evaluation raising: when the interaction check divides by zero the exception
propagates and no aggregate result is produced. -/
def validarTodo (p : PropiedadesPerfilW) (c : CondicionesCarga) :
    Option ResultadosTotales :=
  let tension := if c.Pu > 0 then some (verificarTension p c) else none
  let compresion := if c.Pu < 0 then some (verificarCompresion p c) else none
  let fx := if |c.Mux| > 0 then some (verificarFlexionFuerte p c) else none
  let fy := if |c.Muy| > 0 then some (verificarFlexionDebil p c) else none
  if c.Pu < 0 ∧ (|c.Mux| > 0 ∨ |c.Muy| > 0) then
    match verificarInteraccion compresion fx fy c with
    | none => none
    | some r =>
      some { tension := tension
             compresion := compresion
             flexionEjeFuerte := fx
             flexionEjeDebil := fy
             clasificacionSeccion := clasificarSeccion p
             interaccionFlexoCompresion := some r }
  else
    some { tension := tension
           compresion := compresion
           flexionEjeFuerte := fx
           flexionEjeDebil := fy
           clasificacionSeccion := clasificarSeccion p
           interaccionFlexoCompresion := none }

/-- A unit section: every geometric and material property equal to one. -/
def pUnidad : PropiedadesPerfilW :=
  { d := 1, bf := 1, tf := 1, tw := 1, A := 1, Ix := 1, Sx := 1, Zx := 1,
    rx := 1, Iy := 1, Sy := 1, Zy := 1, ry := 1, ho := 1, J := 1, Cw := 1,
    Fy := 1, Fu := 1, E := 1 }

/-- Loads with compression and a strong-axis moment only. -/
def cUnidad : CondicionesCarga :=
  { Pu := -1, Mux := 1, Muy := 0, L := 1, Lx := 1, Ly := 1, Lt := 1, Cb := 1 }

/-- Loads with compression and a weak-axis moment only. -/
def cDebilEje : CondicionesCarga :=
  { Pu := -1, Mux := 0, Muy := 1, L := 1, Lx := 1, Ly := 1, Lt := 1, Cb := 1 }

/-- Loads placing the lateral-torsional unbraced length exactly at `Lp` of the
unit section, with a non-unit moment-gradient modifier. -/
def cLpBorde : CondicionesCarga :=
  { Pu := 0, Mux := 1, Muy := 0, L := 1, Lx := 1, Ly := 1,
    Lt := lpVal pUnidad, Cb := 3 }

/-- A section whose flange is slender under both the compression and the
flexure limits (`lambda_f = 2` against `E = Fy = 1`). -/
def pEsbelta : PropiedadesPerfilW :=
  { d := 4, bf := 4, tf := 1, tw := 1, A := 1, Ix := 1, Sx := 1, Zx := 1,
    rx := 1, Iy := 1, Sy := 1, Zy := 1, ry := 1, ho := 1, J := 1, Cw := 1,
    Fy := 1, Fu := 1, E := 1 }

/-- A concrete compression result with unit design capacity. -/
def crEjemplo : ResultadoCompresion :=
  .noEsbeltos
    { KLrX := 1, KLrY := 1, KLrGobernante := 1, Fe := 1, lambdaC := 1,
      Fcr := 1, Pn := 1, Pc := 1, PuAplicada := 1, RDC := 1,
      estado := "PASA", modoPandeo := "inelastico" }

/-- A concrete strong-axis flexure result with unit design moment. -/
def fxEjemplo : ResultadoFlexionFuerte :=
  { Lp := 1, Lr := 2, Lt := 1, rts := 1, Mn := 1, Mb := 1, MuxAplicada := 0.2,
    RDC := 1, estado := "PASA", estadoLimite := "fluencia",
    clasificacion := "compacta", ecuacion := "F2-1" }

/-- A concrete weak-axis flexure result with unit design moment. -/
def fyEjemplo : ResultadoFlexionDebil :=
  { Mn := 1, Mb := 1, MuyAplicada := 0.1, RDC := 1, estado := "PASA",
    estadoLimite := "fluencia", clasificacion := "compacta" }

/-- Loads with `Pr/Pc = 0.5` against the unit capacities above. -/
def cEjemploH1 : CondicionesCarga :=
  { Pu := -0.5, Mux := 0.2, Muy := 0.1, L := 1, Lx := 1, Ly := 1, Lt := 1,
    Cb := 1 }

/-- A section with exactly representable lateral-torsional limits: with
`E = 4`, `Fy = 1` and `J = 0.3964875` the F2-5 and F2-6 limits come out as
`Lp = 3.52` and `Lr = 78/7`. -/
def pF2 : PropiedadesPerfilW :=
  { d := 1, bf := 1, tf := 1, tw := 1, A := 1, Ix := 1, Sx := 1, Zx := 0.7,
    rx := 1, Iy := 1, Sy := 1, Zy := 1, ry := 1, ho := 1, J := 0.3964875,
    Cw := 1, Fy := 1, Fu := 1, E := 4 }

/-- Loads placing the lateral-torsional unbraced length exactly at `Lr` of
`pF2`, with moment-gradient modifier 2. -/
def cF2r : CondicionesCarga :=
  { Pu := 0, Mux := 1, Muy := 0, L := 1, Lx := 1, Ly := 1, Lt := lrVal pF2,
    Cb := 2 }

/-- Loads placing the lateral-torsional unbraced length strictly between `Lp`
and `Lr` of `pF2`, with moment-gradient modifier 2. -/
def cF2m : CondicionesCarga :=
  { Pu := 0, Mux := 1, Muy := 0, L := 1, Lx := 1, Ly := 1, Lt := 4, Cb := 2 }

/-- A fully compact section tuned so that `Fy/Fe = 4` at the governing
slenderness `KL/r = 100`: there the two compression paths pick different
buckling regimes even though the effective area equals the gross area. -/
def pE7 : PropiedadesPerfilW :=
  { d := 4, bf := 2, tf := 1, tw := 1, A := 1, Ix := 1, Sx := 1, Zx := 1,
    rx := 1, Iy := 1, Sy := 1, Zy := 1, ry := 1, ho := 1, J := 1, Cw := 1,
    Fy := Real.pi ^ 2 / 2500, Fu := 1, E := 1 }

/-- Loads with effective lengths 100 about both axes. -/
def cE7 : CondicionesCarga :=
  { Pu := -1, Mux := 0, Muy := 0, L := 100, Lx := 100, Ly := 100, Lt := 1,
    Cb := 1 }

/-- C5: element classification is the three-band threshold rule with both band
boundaries inclusive on the lower side: `λ ≤ λp` is compact, `λp < λ ≤ λr` is
noncompact, `λ > λr` is slender. -/
theorem clasificarElemento_bandas (lam lp lr : ℝ) (h : lp < lr) :
    (lam ≤ lp → clasificarElemento lam lp lr = "compacta") ∧
    (lp < lam → lam ≤ lr → clasificarElemento lam lp lr = "no_compacta") ∧
    (lr < lam → clasificarElemento lam lp lr = "esbelta") := by
  refine ⟨fun h1 => ?_, fun h1 h2 => ?_, fun h1 => ?_⟩
  · simp [clasificarElemento, h1]
  · simp [clasificarElemento, not_le.mpr h1, h2]
  · have h2 : ¬ lam ≤ lp := not_le.mpr (h.trans h1)
    have h3 : ¬ lam ≤ lr := not_le.mpr h1
    simp [clasificarElemento, h2, h3]

/-- Witness for C5: at the boundaries `λ = λp` and `λ = λr` (limits 1 < 2) the
classification is compact and noncompact respectively. -/
theorem clasificarElemento_bandas_witness :
    clasificarElemento 1 1 2 = "compacta" ∧
    clasificarElemento 2 1 2 = "no_compacta" := by
  constructor
  · exact (clasificarElemento_bandas 1 1 2 (by norm_num)).1 le_rfl
  · exact (clasificarElemento_bandas 2 1 2 (by norm_num)).2.1 (by norm_num)
      le_rfl

/-- C9: the tension check's governing capacity is the minimum of the factored
yielding and rupture capacities, always equals one of the two, the
demand-capacity ratio is the absolute applied load over that capacity, and the
check passes exactly when the ratio is at most one. -/
theorem verificarTension_gobernante (p : PropiedadesPerfilW)
    (c : CondicionesCarga) :
    (verificarTension p c).PtGobernante =
      min (0.9 * (p.Fy * p.A)) (0.75 * (p.Fu * p.A)) ∧
    ((verificarTension p c).PtGobernante = 0.9 * (p.Fy * p.A) ∨
      (verificarTension p c).PtGobernante = 0.75 * (p.Fu * p.A)) ∧
    (verificarTension p c).RDC = |c.Pu| / (verificarTension p c).PtGobernante ∧
    ((verificarTension p c).estado = "PASA" ↔ (verificarTension p c).RDC ≤ 1.0) := by
  refine ⟨rfl, min_cases _ _ |>.imp (fun h => h.1) (fun h => h.1), rfl, ?_⟩
  simp only [verificarTension]
  split <;> simp_all

/-- C3: on the success path the interaction check selects H1-1a exactly when
`Pr/Pc >= 0.2` and H1-1b otherwise, and reports PASA exactly when the combined
value is at most one. -/
theorem interaccion_seleccion (cr : ResultadoCompresion)
    (fx : ResultadoFlexionFuerte) (fy : ResultadoFlexionDebil)
    (c : CondicionesCarga) (hPc : cr.Pc ≠ 0) (hMcx : fx.Mb ≠ 0)
    (hMcy : fy.Mb ≠ 0) :
    verificarInteraccion (some cr) (some fx) (some fy) c =
      some (.calculado
        (datosInteraccion |c.Pu| cr.Pc |c.Mux| fx.Mb |c.Muy| fy.Mb)) ∧
    (datosInteraccion |c.Pu| cr.Pc |c.Mux| fx.Mb |c.Muy| fy.Mb).interaccion =
      (if |c.Pu| / cr.Pc ≥ 0.2 then
        |c.Pu| / cr.Pc + (8.0 / 9.0) * (|c.Mux| / fx.Mb + |c.Muy| / fy.Mb)
      else |c.Pu| / (2 * cr.Pc) + (|c.Mux| / fx.Mb + |c.Muy| / fy.Mb)) ∧
    (datosInteraccion |c.Pu| cr.Pc |c.Mux| fx.Mb |c.Muy| fy.Mb).ecuacionAplicada =
      (if |c.Pu| / cr.Pc ≥ 0.2 then "H1-1a" else "H1-1b") ∧
    ((datosInteraccion |c.Pu| cr.Pc |c.Mux| fx.Mb |c.Muy| fy.Mb).estado = "PASA" ↔
      (datosInteraccion |c.Pu| cr.Pc |c.Mux| fx.Mb |c.Muy| fy.Mb).interaccion ≤ 1.0) := by
  refine ⟨by simp [verificarInteraccion, hPc, hMcx, hMcy], rfl, rfl, ?_⟩
  by_cases h : interaccionVal |c.Pu| cr.Pc |c.Mux| fx.Mb |c.Muy| fy.Mb ≤ 1.0 <;>
    simp [datosInteraccion, h]

/-- Witness for C3: with `Pr/Pc = 0.5` the interaction check selects H1-1a
and the combined value is the weighted sum. -/
theorem interaccion_seleccion_witness :
    |cEjemploH1.Pu| / crEjemplo.Pc ≥ 0.2 ∧
    verificarInteraccion (some crEjemplo) (some fxEjemplo) (some fyEjemplo)
      cEjemploH1 = some (.calculado (datosInteraccion |cEjemploH1.Pu|
        crEjemplo.Pc |cEjemploH1.Mux| fxEjemplo.Mb |cEjemploH1.Muy|
        fyEjemplo.Mb)) ∧
    (datosInteraccion |cEjemploH1.Pu| crEjemplo.Pc |cEjemploH1.Mux|
      fxEjemplo.Mb |cEjemploH1.Muy| fyEjemplo.Mb).ecuacionAplicada = "H1-1a" ∧
    (datosInteraccion |cEjemploH1.Pu| crEjemplo.Pc |cEjemploH1.Mux|
      fxEjemplo.Mb |cEjemploH1.Muy| fyEjemplo.Mb).interaccion =
      0.5 / 1 + (8.0 / 9.0) * (0.2 / 1 + 0.1 / 1) := by
  have hPc : crEjemplo.Pc ≠ 0 := by
    norm_num [crEjemplo, ResultadoCompresion.Pc]
  have hMcx : fxEjemplo.Mb ≠ 0 := by norm_num [fxEjemplo]
  have hMcy : fyEjemplo.Mb ≠ 0 := by norm_num [fyEjemplo]
  have h := interaccion_seleccion crEjemplo fxEjemplo fyEjemplo cEjemploH1
    hPc hMcx hMcy
  have hge : |cEjemploH1.Pu| / crEjemplo.Pc ≥ 0.2 := by
    norm_num [cEjemploH1, crEjemplo, ResultadoCompresion.Pc, abs_of_nonneg]
  refine ⟨hge, h.1, ?_, ?_⟩
  · rw [h.2.2.1, if_pos hge]
  · rw [h.2.1, if_pos hge]
    norm_num [cEjemploH1, crEjemplo, fxEjemplo, fyEjemplo,
      ResultadoCompresion.Pc, abs_of_nonneg]

/-- C4 (amended): with axial compression and exactly one nonzero bending
moment, the absent axis contributes a zero moment capacity, the combined-value
formula divides by that zero and the evaluation fails: no aggregate result is
produced. -/
theorem interaccion_falla_eje_ausente (p : PropiedadesPerfilW)
    (c : CondicionesCarga) (hPu : c.Pu < 0)
    (hM : (c.Mux ≠ 0 ∧ c.Muy = 0) ∨ (c.Mux = 0 ∧ c.Muy ≠ 0)) :
    validarTodo p c = none := by
  rcases hM with ⟨hx, hy⟩ | ⟨hx, hy⟩
  · have h1 : |c.Mux| > 0 := abs_pos.mpr hx
    simp [validarTodo, verificarInteraccion, hPu, h1, hy, hPu.asymm]
  · have h1 : |c.Muy| > 0 := abs_pos.mpr hy
    simp [validarTodo, verificarInteraccion, hPu, h1, hx, hPu.asymm]

/-- Counterexample for C4: compression plus a strong-axis moment only; the
evaluation produces no result at all instead of a defined combined value. -/
theorem validarTodo_eje_ausente_cx :
    cUnidad.Pu < 0 ∧ cUnidad.Mux ≠ 0 ∧ cUnidad.Muy = 0 ∧
    validarTodo pUnidad cUnidad = none := by
  refine ⟨by norm_num [cUnidad], by norm_num [cUnidad], by norm_num [cUnidad],
    ?_⟩
  simp [validarTodo, verificarInteraccion, cUnidad]

/-- Witness for C4's amended statement, at compression plus a weak-axis
moment only. -/
theorem interaccion_falla_eje_ausente_witness :
    validarTodo pUnidad cDebilEje = none :=
  interaccion_falla_eje_ausente pUnidad cDebilEje (by norm_num [cDebilEje])
    (Or.inr ⟨by norm_num [cDebilEje], by norm_num [cDebilEje]⟩)

/-- C7 (amended): at `Lt = Lp` the strong-axis check returns the plastic
moment, while the adjacent interpolation formula evaluates to `Cb` times the
plastic moment, so the two regime formulas agree exactly when `Cb = 1`. -/
theorem flexionFuerte_continuidad_lp (p : PropiedadesPerfilW)
    (c : CondicionesCarga) (h : c.Lt = lpVal p) :
    (verificarFlexionFuerte p c).Mn = mpVal p ∧
    mnInterp p c.Cb c.Lt = c.Cb * mpVal p := by
  constructor
  · simp [verificarFlexionFuerte, mnFuerteVal, h.le]
  · simp [mnInterp, h]

/-- Counterexample for C7: on the unit section with `Cb = 2` the
interpolation formula at `Lt = Lp` differs from the yielding value `Fy Zx`. -/
theorem mnInterp_lp_cx :
    mnInterp pUnidad 2 (lpVal pUnidad) ≠ pUnidad.Fy * pUnidad.Zx := by
  norm_num [mnInterp, mpVal, pUnidad]

/-- Witness for C7's amended statement at `Cb = 3` on the unit section. -/
theorem flexionFuerte_continuidad_lp_witness :
    (verificarFlexionFuerte pUnidad cLpBorde).Mn = mpVal pUnidad ∧
    mnInterp pUnidad cLpBorde.Cb cLpBorde.Lt = cLpBorde.Cb * mpVal pUnidad :=
  flexionFuerte_continuidad_lp pUnidad cLpBorde rfl

lemma sqrtEFy_pEsbelta : Real.sqrt (pEsbelta.E / pEsbelta.Fy) = 1 := by
  rw [show pEsbelta.E / pEsbelta.Fy = 1 by norm_num [pEsbelta]]
  exact Real.sqrt_one

lemma clasif_pEsbelta_flex : (clasificarSeccion pEsbelta).patinFlexion = "esbelta" := by
  simp only [clasificarSeccion, clasificarElemento, raizEFy, sqrtEFy_pEsbelta]
  norm_num [lambdaF, pEsbelta]

lemma clasif_pEsbelta_comp : (clasificarSeccion pEsbelta).patinCompresion = "esbelta" := by
  simp only [clasificarSeccion, clasificarElemento, raizEFy, sqrtEFy_pEsbelta]
  norm_num [lambdaF, pEsbelta]

/-- C8 (amended): for a slender flange under flexure the weak-axis nominal
moment is `(0.70 E / (bf/tf)^2) Sy`, built on the full width-to-thickness
ratio `bf/tf`, not on the half-width flange ratio `bf/(2 tf)`. -/
theorem flexionDebil_esbelta (p : PropiedadesPerfilW) (c : CondicionesCarga)
    (h : (clasificarSeccion p).patinFlexion = "esbelta") :
    (verificarFlexionDebil p c).Mn =
      0.70 * p.E / (p.bf / p.tf) ^ 2 * p.Sy := by
  show mnDebilVal p = _
  rw [mnDebilVal, h]
  rw [if_neg (by decide), if_neg (by decide), fcrF6]

/-- Counterexample for C8: on the slender-flange section the weak-axis
nominal moment differs from the claimed `(0.70 E / lambda_f^2) Sy` with
`lambda_f = bf/(2 tf)`. -/
theorem flexionDebil_esbelta_cx :
    (clasificarSeccion pEsbelta).patinFlexion = "esbelta" ∧
    (verificarFlexionDebil pEsbelta cUnidad).Mn ≠
      0.70 * pEsbelta.E / (lambdaF pEsbelta) ^ 2 * pEsbelta.Sy := by
  refine ⟨clasif_pEsbelta_flex, ?_⟩
  show mnDebilVal pEsbelta ≠ _
  rw [mnDebilVal, clasif_pEsbelta_flex]
  rw [if_neg (by decide), if_neg (by decide)]
  norm_num [fcrF6, lambdaF, pEsbelta]

/-- Witness for C8's amended statement on the slender-flange section. -/
theorem flexionDebil_esbelta_witness :
    (clasificarSeccion pEsbelta).patinFlexion = "esbelta" ∧
    (verificarFlexionDebil pEsbelta cUnidad).Mn =
      0.70 * pEsbelta.E / (pEsbelta.bf / pEsbelta.tf) ^ 2 * pEsbelta.Sy :=
  ⟨clasif_pEsbelta_flex,
    flexionDebil_esbelta pEsbelta cUnidad clasif_pEsbelta_flex⟩

/-- C6: for a flange classified slender whose ratio exceeds the E7 limit
`1.03 sqrt(E/Fy)`, the effective width is the E7-3 reduction built from the
ratio of the local critical stress `Fcl = min(1.49 (1.03 sqrt(E/Fy)/λf)^2 Fy, Fy)`
to the reference `Fn`, and `Fn` is the standard path's factored design
capacity `0.9 Fcr A`, not the raw critical stress. -/
theorem bePatin_reduccion (p : PropiedadesPerfilW) (c : CondicionesCarga)
    (h1 : (clasificarSeccion p).patinCompresion = "esbelta")
    (h2 : lambdaF p > 1.03 * Real.sqrt (p.E / p.Fy)) :
    bePatin p c =
      p.bf * (1 - 0.22 * Real.sqrt (fclPatin p / fnReferencia p c)) *
        Real.sqrt (fclPatin p / fnReferencia p c) ∧
    fclPatin p =
      min (1.49 * ((1.03 * Real.sqrt (p.E / p.Fy)) / lambdaF p) ^ 2 * p.Fy)
        p.Fy ∧
    fnReferencia p c =
      0.9 * ((verificarCompresionNoEsbeltos p c).Fcr * p.A) := by
  refine ⟨?_, ?_, rfl⟩
  · rw [bePatin, if_pos h1, if_pos (show lambdaF p > lambdaRfE7 p from by
      rw [lambdaRfE7]; exact h2)]
  · simp only [fclPatin, lambdaRfE7]
    rcases le_or_lt (1.49 * ((1.03 * Real.sqrt (p.E / p.Fy)) / lambdaF p) ^ 2
      * p.Fy) p.Fy with hle | hlt
    · rw [if_neg (not_lt.mpr hle), min_eq_left hle]
    · rw [if_pos hlt, min_eq_right hlt.le]

/-- Witness for C6 on the slender-flange section. -/
theorem bePatin_reduccion_witness :
    (clasificarSeccion pEsbelta).patinCompresion = "esbelta" ∧
    lambdaF pEsbelta > 1.03 * Real.sqrt (pEsbelta.E / pEsbelta.Fy) ∧
    bePatin pEsbelta cUnidad =
      pEsbelta.bf *
        (1 - 0.22 * Real.sqrt (fclPatin pEsbelta / fnReferencia pEsbelta cUnidad)) *
        Real.sqrt (fclPatin pEsbelta / fnReferencia pEsbelta cUnidad) := by
  have h2 : lambdaF pEsbelta > 1.03 * Real.sqrt (pEsbelta.E / pEsbelta.Fy) := by
    rw [sqrtEFy_pEsbelta]
    norm_num [lambdaF, pEsbelta]
  exact ⟨clasif_pEsbelta_comp, h2,
    (bePatin_reduccion pEsbelta cUnidad clasif_pEsbelta_comp h2).1⟩

lemma sqrtEFy_pF2 : Real.sqrt (pF2.E / pF2.Fy) = 2 := by
  rw [show pF2.E / pF2.Fy = 2 ^ 2 by norm_num [pF2]]
  exact Real.sqrt_sq (by norm_num)

lemma lp_pF2 : lpVal pF2 = 3.52 := by
  rw [lpVal, sqrtEFy_pF2]
  norm_num [pF2]

lemma rts_pF2 : rtsVal pF2 = 1 := by
  rw [rtsVal, show pF2.Iy * pF2.Cw = 1 by norm_num [pF2], Real.sqrt_one,
    show (1 : ℝ) / pF2.Sx = 1 by norm_num [pF2], Real.sqrt_one]

lemma uJ_pF2 : pF2.J * 1.0 / (pF2.Sx * pF2.ho) = 0.3964875 := by
  norm_num [pF2]

lemma lr_pF2 : lrVal pF2 = 78 / 7 := by
  rw [lrVal, rts_pF2, uJ_pF2]
  rw [show (0.3964875 : ℝ) ^ 2 + 6.76 * (0.7 * pF2.Fy / pF2.E) ^ 2 =
    0.6035125 ^ 2 by norm_num [pF2]]
  rw [Real.sqrt_sq (by norm_num : (0 : ℝ) ≤ 0.6035125)]
  rw [show (0.3964875 : ℝ) + 0.6035125 = 1 by norm_num, Real.sqrt_one]
  norm_num [pF2]

lemma fcr_pF2_bound : fcrLTB pF2 cF2r.Cb cF2r.Lt * pF2.Sx > pF2.Fy * pF2.Zx := by
  have hLt : cF2r.Lt = 78 / 7 := lr_pF2
  rw [fcrLTB, rts_pF2, uJ_pF2, hLt]
  rw [show pF2.E = 4 from rfl, show pF2.Sx = 1 from rfl,
    show pF2.Fy = 1 from rfl, show pF2.Zx = 0.7 from rfl,
    show cF2r.Cb = 2 from rfl]
  rw [show ((78 : ℝ) / 7 / 1) = 78 / 7 by norm_num]
  have hsqrt : 2 ≤ Real.sqrt (1 + 0.078 * 0.3964875 * ((78 : ℝ) / 7) ^ 2) :=
    Real.le_sqrt_of_sq_le (by norm_num)
  have hpi2 : (9 : ℝ) < Real.pi ^ 2 := by nlinarith [Real.pi_gt_three]
  have hprod : 0 ≤ (Real.pi ^ 2 - 9) *
      (Real.sqrt (1 + 0.078 * 0.3964875 * ((78 : ℝ) / 7) ^ 2) - 2) :=
    mul_nonneg (by linarith) (by linarith)
  have hps : 18 ≤ Real.pi ^ 2 *
      Real.sqrt (1 + 0.078 * 0.3964875 * ((78 : ℝ) / 7) ^ 2) := by
    nlinarith [hprod, hpi2, hsqrt]
  have hco : 2 * Real.pi ^ 2 * 4 / ((78 : ℝ) / 7) ^ 2 *
      Real.sqrt (1 + 0.078 * 0.3964875 * ((78 : ℝ) / 7) ^ 2) * 1 =
      392 / 6084 * (Real.pi ^ 2 *
        Real.sqrt (1 + 0.078 * 0.3964875 * ((78 : ℝ) / 7) ^ 2)) := by
    ring
  rw [hco]
  linarith

/-- Counterexample for C1: at `Lt = Lr` exactly the strong-axis check takes
the elastic branch (here capped to the plastic moment 0.7), while the
interpolation formula evaluates to 1.4. -/
theorem flexionFuerte_lr_cx :
    lpVal pF2 < cF2r.Lt ∧ cF2r.Lt ≤ lrVal pF2 ∧
    (verificarFlexionFuerte pF2 cF2r).Mn ≠ mnInterp pF2 cF2r.Cb cF2r.Lt := by
  have hLt : cF2r.Lt = lrVal pF2 := rfl
  refine ⟨by rw [hLt, lp_pF2, lr_pF2]; norm_num, le_of_eq hLt, ?_⟩
  have hMn : (verificarFlexionFuerte pF2 cF2r).Mn = pF2.Fy * pF2.Zx := by
    show mnFuerteVal pF2 cF2r = _
    rw [mnFuerteVal,
      if_neg (show ¬ cF2r.Lt ≤ lpVal pF2 by
        rw [hLt, lp_pF2, lr_pF2]; norm_num),
      if_neg (show ¬ (cF2r.Lt < lrVal pF2 ∧ cF2r.Lt ≤ lrVal pF2) by
        rw [hLt]; simp),
      if_pos fcr_pF2_bound]
  have hInterp : mnInterp pF2 cF2r.Cb cF2r.Lt = 1.4 := by
    rw [mnInterp, mpVal, show pF2.Fy = 1 from rfl, show pF2.Zx = 0.7 from rfl,
      show pF2.Sx = 1 from rfl, show cF2r.Cb = 2 from rfl]
    norm_num
  rw [hMn, hInterp, show pF2.Fy = 1 from rfl, show pF2.Zx = 0.7 from rfl]
  norm_num

/-- C1 (amended): the strong-axis nominal moment is the plastic moment for
`Lt ≤ Lp`, the Cb-scaled interpolation for `Lp < Lt < Lr`, and the elastic
lateral-torsional stress times `Sx` capped at the plastic moment for
`Lt ≥ Lr` — at `Lt = Lr` exactly the elastic, not the interpolation, formula
applies. -/
theorem flexionFuerte_regimenes (p : PropiedadesPerfilW)
    (c : CondicionesCarga) :
    (c.Lt ≤ lpVal p → (verificarFlexionFuerte p c).Mn = mpVal p) ∧
    (lpVal p < c.Lt → c.Lt < lrVal p →
      (verificarFlexionFuerte p c).Mn = mnInterp p c.Cb c.Lt) ∧
    (lpVal p < c.Lt → lrVal p ≤ c.Lt →
      (verificarFlexionFuerte p c).Mn =
        min (fcrLTB p c.Cb c.Lt * p.Sx) (mpVal p)) := by
  refine ⟨fun h => ?_, fun h1 h2 => ?_, fun h1 h2 => ?_⟩
  · show mnFuerteVal p c = _
    rw [mnFuerteVal, if_pos h]
  · show mnFuerteVal p c = _
    rw [mnFuerteVal, if_neg (not_le.mpr h1), if_pos ⟨h2, h2.le⟩]
  · show mnFuerteVal p c = _
    rw [mnFuerteVal, if_neg (not_le.mpr h1),
      if_neg (show ¬ (c.Lt < lrVal p ∧ c.Lt ≤ lrVal p) from
        fun hc => absurd hc.1 (not_lt.mpr h2))]
    rcases lt_or_le (p.Fy * p.Zx) (fcrLTB p c.Cb c.Lt * p.Sx) with hgt | hle
    · rw [if_pos hgt, min_eq_right (by rw [mpVal]; exact hgt.le), mpVal]
    · rw [if_neg (not_lt.mpr hle), min_eq_left (by rw [mpVal]; exact hle)]

/-- Witness for C1's amended statement: at `Lt = Lr` of `pF2` the third
regime applies. -/
theorem flexionFuerte_regimenes_witness :
    lpVal pF2 < cF2r.Lt ∧ lrVal pF2 ≤ cF2r.Lt ∧
    (verificarFlexionFuerte pF2 cF2r).Mn =
      min (fcrLTB pF2 cF2r.Cb cF2r.Lt * pF2.Sx) (mpVal pF2) := by
  have h1 : lpVal pF2 < cF2r.Lt := by
    rw [show cF2r.Lt = lrVal pF2 from rfl, lp_pF2, lr_pF2]
    norm_num
  have h2 : lrVal pF2 ≤ cF2r.Lt := le_of_eq rfl
  exact ⟨h1, h2, (flexionFuerte_regimenes pF2 cF2r).2.2 h1 h2⟩

/-- C10: in the inelastic lateral-torsional regime `Lp < Lt < Lr` the nominal
moment is exactly the Cb-scaled interpolation with no plastic-moment cap, and
for `Cb > 1` there are inputs in this regime whose nominal moment strictly
exceeds the plastic moment `Fy Zx`. -/
theorem flexionFuerte_sin_tope_inelastico :
    (∀ (p : PropiedadesPerfilW) (c : CondicionesCarga),
      lpVal p < c.Lt → c.Lt < lrVal p →
      (verificarFlexionFuerte p c).Mn = mnInterp p c.Cb c.Lt) ∧
    (∃ (p : PropiedadesPerfilW) (c : CondicionesCarga),
      1 < c.Cb ∧ lpVal p < c.Lt ∧ c.Lt < lrVal p ∧
      p.Fy * p.Zx < (verificarFlexionFuerte p c).Mn) := by
  constructor
  · intro p c h1 h2
    show mnFuerteVal p c = _
    rw [mnFuerteVal, if_neg (not_le.mpr h1), if_pos ⟨h2, h2.le⟩]
  · have h1 : lpVal pF2 < cF2m.Lt := by
      rw [lp_pF2, show cF2m.Lt = (4 : ℝ) from rfl]
      norm_num
    have h2 : cF2m.Lt < lrVal pF2 := by
      rw [lr_pF2, show cF2m.Lt = (4 : ℝ) from rfl]
      norm_num
    have hMn : (verificarFlexionFuerte pF2 cF2m).Mn = 1.4 := by
      show mnFuerteVal pF2 cF2m = _
      rw [mnFuerteVal, if_neg (not_le.mpr h1), if_pos ⟨h2, h2.le⟩]
      rw [mnInterp, mpVal, show pF2.Fy = 1 from rfl,
        show pF2.Zx = 0.7 from rfl, show pF2.Sx = 1 from rfl,
        show cF2m.Cb = 2 from rfl]
      norm_num
    refine ⟨pF2, cF2m, by norm_num [cF2m], h1, h2, ?_⟩
    rw [hMn, show pF2.Fy = 1 from rfl, show pF2.Zx = 0.7 from rfl]
    norm_num

/-- Witness for C10's universal part at the in-regime input `Lt = 4`. -/
theorem flexionFuerte_sin_tope_witness :
    lpVal pF2 < cF2m.Lt ∧ cF2m.Lt < lrVal pF2 ∧
    (verificarFlexionFuerte pF2 cF2m).Mn = mnInterp pF2 cF2m.Cb cF2m.Lt := by
  have h1 : lpVal pF2 < cF2m.Lt := by
    rw [lp_pF2, show cF2m.Lt = (4 : ℝ) from rfl]
    norm_num
  have h2 : cF2m.Lt < lrVal pF2 := by
    rw [lr_pF2, show cF2m.Lt = (4 : ℝ) from rfl]
    norm_num
  exact ⟨h1, h2, flexionFuerte_sin_tope_inelastico.1 pF2 cF2m h1 h2⟩

lemma sqrtEFy_pE7 : Real.sqrt (pE7.E / pE7.Fy) = 50 / Real.pi := by
  rw [show pE7.E / pE7.Fy = (50 / Real.pi) ^ 2 by
    rw [show pE7.E = 1 from rfl, show pE7.Fy = Real.pi ^ 2 / 2500 from rfl]
    rw [div_pow]
    field_simp
    norm_num]
  exact Real.sqrt_sq (by positivity)

lemma clasif_pE7_patin : (clasificarSeccion pE7).patinCompresion = "compacta" := by
  simp only [clasificarSeccion, clasificarElemento, raizEFy, sqrtEFy_pE7]
  have h : lambdaF pE7 ≤ 0.56 * (50 / Real.pi) := by
    rw [show lambdaF pE7 = 1 by norm_num [lambdaF, pE7]]
    rw [show (0.56 : ℝ) * (50 / Real.pi) = 28 / Real.pi by ring]
    rw [le_div_iff₀ Real.pi_pos]
    nlinarith [Real.pi_lt_d2]
  rw [if_pos h]

lemma clasif_pE7_alma : (clasificarSeccion pE7).almaFlexion = "compacta" := by
  simp only [clasificarSeccion, clasificarElemento, raizEFy, sqrtEFy_pE7]
  have h : lambdaW pE7 ≤ 3.76 * (50 / Real.pi) := by
    rw [show lambdaW pE7 = 2 by norm_num [lambdaW, pE7]]
    rw [show (3.76 : ℝ) * (50 / Real.pi) = 188 / Real.pi by ring]
    rw [le_div_iff₀ Real.pi_pos]
    nlinarith [Real.pi_lt_d2]
  rw [if_pos h]

lemma bePatin_pE7 : bePatin pE7 cE7 = pE7.bf := by
  rw [bePatin, if_neg (by rw [clasif_pE7_patin]; decide)]

lemma beAlma_pE7 : beAlma pE7 cE7 = pE7.d - 2 * pE7.tf := by
  rw [beAlma, if_neg (by rw [clasif_pE7_alma]; decide)]

lemma ae_pE7 : aeEfectiva pE7 cE7 = pE7.A := by
  simp only [aeEfectiva, bePatin_pE7, beAlma_pE7]
  norm_num [pE7]

lemma fymod_pE7 : fyModificado pE7 cE7 = pE7.Fy := by
  rw [fyModificado, ae_pE7, show pE7.A = (1 : ℝ) from rfl]
  norm_num

lemma pcs_pE7 : (verificarCompresionEsbeltos pE7 cE7).Pc =
    0.9 * ((0.658 : ℝ) ^ (4 : ℕ) * (Real.pi ^ 2 / 2500)) := by
  have hKLr : max (cE7.Lx / pE7.rx) (cE7.Ly / pE7.ry) = 100 := by
    norm_num [cE7, pE7]
  have hlam : Real.sqrt (fyModificado pE7 cE7 /
      (Real.pi ^ 2 * pE7.E / (100 : ℝ) ^ 2)) = 2 := by
    rw [fymod_pE7, show pE7.Fy = Real.pi ^ 2 / 2500 from rfl,
      show pE7.E = 1 from rfl]
    rw [show Real.pi ^ 2 / 2500 / (Real.pi ^ 2 * 1 / (100 : ℝ) ^ 2) = 2 ^ 2 by
      have hπ : Real.pi ≠ 0 := Real.pi_ne_zero
      field_simp
      ring]
    exact Real.sqrt_sq (by norm_num)
  simp only [verificarCompresionEsbeltos, hKLr]
  rw [hlam]
  rw [if_pos (Or.inr (by norm_num : (2 : ℝ) ≤ 2.25))]
  rw [fymod_pE7, ae_pE7, show pE7.Fy = Real.pi ^ 2 / 2500 from rfl,
    show pE7.A = (1 : ℝ) from rfl]
  rw [show ((2 : ℝ) ^ 2 : ℝ) = ((4 : ℕ) : ℝ) by norm_num]
  rw [Real.rpow_natCast]
  ring

lemma pcn_pE7 : (verificarCompresionNoEsbeltos pE7 cE7).Pc =
    0.9 * (0.877 * (Real.pi ^ 2 / 10000)) := by
  have hKLr : max (cE7.Lx / pE7.rx) (cE7.Ly / pE7.ry) = 100 := by
    norm_num [cE7, pE7]
  have hFyFe : pE7.Fy / (Real.pi ^ 2 * pE7.E / (100 : ℝ) ^ 2) = 4 := by
    rw [show pE7.Fy = Real.pi ^ 2 / 2500 from rfl, show pE7.E = 1 from rfl]
    have hπ : Real.pi ≠ 0 := Real.pi_ne_zero
    field_simp
    ring
  simp only [verificarCompresionNoEsbeltos, hKLr]
  rw [hFyFe]
  have hcond : ¬ ((100 : ℝ) ≤ 4.71 * Real.sqrt (pE7.E / pE7.Fy) ∨
      (4 : ℝ) ≤ 2.25) := by
    push_neg
    refine ⟨?_, by norm_num⟩
    rw [sqrtEFy_pE7, show (4.71 : ℝ) * (50 / Real.pi) = 235.5 / Real.pi by
      ring, div_lt_iff₀ Real.pi_pos]
    nlinarith [Real.pi_gt_three]
  rw [if_neg hcond]
  rw [show pE7.E = 1 from rfl, show pE7.A = (1 : ℝ) from rfl]
  ring

/-- C2: the two compression paths disagree on `pE7` although the slender path
computes an effective area equal to the gross area and an unmodified yield
stress — the slender path classifies the regime with `sqrt(Fy/Fe) <= 2.25`
(inelastic here) while the standard path uses `Fy/Fe <= 2.25` (elastic here),
so the design capacities differ. -/
theorem compresionEsbeltos_divergencia :
    (verificarCompresionEsbeltos pE7 cE7).Ae = pE7.A ∧
    (verificarCompresionEsbeltos pE7 cE7).FyMod = pE7.Fy ∧
    (verificarCompresionEsbeltos pE7 cE7).Pc ≠
      (verificarCompresionNoEsbeltos pE7 cE7).Pc := by
  refine ⟨ae_pE7, fymod_pE7, ?_⟩
  rw [pcs_pE7, pcn_pE7]
  intro h
  have h3 : ((0.9 * 0.658 ^ 4 / 2500 - 0.9 * 0.877 / 10000) : ℝ) *
      Real.pi ^ 2 = 0 := by
    rw [sub_mul,
      show (0.9 : ℝ) * 0.658 ^ 4 / 2500 * Real.pi ^ 2 =
        0.9 * ((0.658 : ℝ) ^ (4 : ℕ) * (Real.pi ^ 2 / 2500)) by ring,
      show (0.9 : ℝ) * 0.877 / 10000 * Real.pi ^ 2 =
        0.9 * (0.877 * (Real.pi ^ 2 / 10000)) by ring,
      h, sub_self]
  rcases mul_eq_zero.mp h3 with h5 | h5
  · revert h5
    norm_num
  · exact absurd h5 (by positivity)

end
